import Mathlib

/-!
Verification of the memory / personality / response-generation core of the
companion web application.  Definitions are shallow embeddings of the Python
source (`app/memory.py`, `app/personality.py`, `app/suggestion_engine.py`):
pure functions become Lean functions, datetimes become integers (a linear
timestamp scale; for date-only comparisons an integer day number), Python
floats become rationals, calls into the external vector database (ChromaDB)
are modelled by an explicit record store together with a per-query distance
assignment, and every site where the Python code draws from `random` takes
the drawn value as an explicit argument, so theorems quantify over all
possible draws.
-/

/-! ## String helpers

Structural-recursion models of the Python string methods the code uses
(`split`, `lstrip`, `strip`, `lower`), written over the character list of a
`String` so that every definition reduces inside the kernel. -/

/-- Split a character list at every occurrence of the separator character,
keeping empty pieces, like Python `str.split(sep)` for a one-character
separator. -/
def splitChar (sep : Char) : List Char → List (List Char)
  | [] => [[]]
  | x :: xs =>
    let r := splitChar sep xs
    if x = sep then [] :: r
    else
      match r with
      | [] => [[x]]
      | y :: ys => (x :: y) :: ys

/-- Python `s.split(",")`. -/
def splitComma (s : String) : List String :=
  (splitChar ',' s.data).map String.mk

/-- Python `s.lstrip()` (leading whitespace removal). -/
def pyLstrip (s : String) : String :=
  String.mk (s.data.dropWhile Char.isWhitespace)

/-- Python `s.strip()` (whitespace removal at both ends). -/
def pyStrip (s : String) : String :=
  String.mk (((s.data.dropWhile Char.isWhitespace).reverse.dropWhile
    Char.isWhitespace).reverse)

/-- Python `s.lower()` (the code only ever lowercases ASCII style names). -/
def pyLower (s : String) : String :=
  String.mk (s.data.map Char.toLower)

/-! ## Memory store (`app/memory.py`, class `MemorySystem`)

A stored record.  `save_memory` stamps the metadata with the record id, the
owning `user_id`, the comma-joined tag string and a creation timestamp;
callers may add further metadata keys.  The only metadata keys read back by
the code under verification are `user_id`, `tags` and `timestamp`, so the
metadata mapping is embedded as those three fields (`timestamp` is absent on
records whose writer did not supply it, hence an `Option`; it is compared
only through its calendar date, modelled as an integer day number). -/
structure MRec where
  id : String
  text : String
  user_id : String
  tags : String
  ts : Option Int
deriving DecidableEq

/-- A query result entry: the record together with the distance ChromaDB
reported for it (`results` carries parallel `ids`/`documents`/`metadatas`/
`distances` arrays; the embedding keeps each row as one value). -/
structure Mem where
  record : MRec
  distance : ℚ
deriving DecidableEq

/-- Comparison of records by the distance the current query assigned them. -/
def distLE (dist : MRec → ℚ) : MRec → MRec → Prop :=
  fun a b => dist a ≤ dist b

instance (dist : MRec → ℚ) : DecidableRel (distLE dist) :=
  fun a b => inferInstanceAs (Decidable (dist a ≤ dist b))

instance (dist : MRec → ℚ) : IsTotal MRec (distLE dist) :=
  ⟨fun a b => le_total (dist a) (dist b)⟩

instance (dist : MRec → ℚ) : IsTrans MRec (distLE dist) :=
  ⟨fun _ _ _ hab hbc => le_trans hab hbc⟩

/-- `self.collection.query(query_embeddings=..., n_results=n, where=w)`:
the external ChromaDB call.  Modelled as: keep the records matching the
`where` filter (when one is given), order them by distance to the query
embedding (the `dist` assignment is the model of ChromaDB computing a
distance between the stored vector and the query vector), return the first
`n`. -/
def chromaQuery (store : List MRec) (dist : MRec → ℚ) (n : Nat)
    (whereUser : Option String) : List MRec :=
  let pool : List MRec := match whereUser with
    | some u => store.filter (fun r => r.user_id = u)
    | none => store
  (pool.insertionSort (distLE dist)).take n

/-- The over-fetched candidate set of `query_memory` (memory.py line 163):
`n_results = max(10, k * 3)`, `where = {"user_id": user_id} if user_id else
None`. -/
def overfetch (store : List MRec) (dist : MRec → ℚ) (user_id : String)
    (k : Nat) : List MRec :=
  chromaQuery store dist (max 10 (k * 3))
    (if user_id = "" then none else some user_id)

/-- `any(tag in memory_tags for tag in tags)` where
`memory_tags = metadata["tags"].split(",")` (memory.py lines 189 to 190). -/
def tagMatch (tags : List String) (r : MRec) : Bool :=
  tags.any (fun t => (splitComma r.tags).contains t)

/-- The tag-filtering block of `query_memory` (memory.py lines 174 to 211):
when a nonempty tag list is supplied, collect survivors of the tag
intersection test stopping after `k` of them (the loop breaks once
`len(filtered_results) >= k`, so the collected list is the first `k`
survivors), adopt them only if at least one survived, then trim whichever
list is current to `k`. -/
def applyTagFilter (k : Nat) (tags : List String) (results : List MRec) :
    List MRec :=
  if tags ≠ [] then
    (if (results.filter (tagMatch tags)).take k ≠ []
     then (results.filter (tagMatch tags)).take k
     else results).take k
  else results

/-- The post-retrieval part of `query_memory` (memory.py lines 170 to 234)
applied to the over-fetched candidate list: empty-result check, tag
filtering, final empty check, and assembly of the returned memory
dictionaries (at most `k`, the loop bound `min(len, k)`) with their
distances. -/
def postProcess (dist : MRec → ℚ) (k : Nat) (tags : List String)
    (results : List MRec) : List Mem :=
  if results = [] then []
  else if applyTagFilter k tags results = [] then []
  else ((applyTagFilter k tags results).take k).map (fun r => Mem.mk r (dist r))

/-- `MemorySystem.query_memory(user_id, query, k, tags)` (memory.py lines
145 to 238).  The query text enters only through the distance assignment
`dist` (its embedding is compared against each stored vector by ChromaDB);
`tags = []` models both `tags=None` and an empty tag list (the code guards
with `if tags and len(tags) > 0`). -/
def queryMemory (store : List MRec) (dist : MRec → ℚ) (user_id : String)
    (k : Nat) (tags : List String) : List Mem :=
  postProcess dist k tags (overfetch store dist user_id k)

/-! ## Morning check-in rule (`app/suggestion_engine.py`,
`check_proactive_engagement`, lines 300 to 334) -/

/-- Integer day number of `date(2000, 1, 1)`, the date parsed from the
`"2000-01-01"` default used when a retrieved record has no `timestamp`
metadata (days since 1970-01-01). -/
def date2000 : Int := 10957

/-- The three morning greetings (suggestion_engine.py lines 329 to 333). -/
def morningMessages (name : String) : List String :=
  ["Good morning, " ++ name ++ "! Ready to make today amazing?",
   "Rise and shine, " ++ name ++ "! What\x27s one thing you want to accomplish today?",
   "Morning! Let\x27s make today count, " ++ name ++ ". What\x27s on your mind?"]

/-- One evaluation of the morning branch of `check_proactive_engagement`
(suggestion_engine.py lines 301 to 334).  Arguments beyond the store:
`dist` is the distance assignment for the query text `"morning check-in"`,
`hour` and `today` the current UTC hour and day number, `name` the profile
name (already defaulted to `"friend"` when absent), `gIdx` the
`random.choice` draw for the greeting, `newId` the uuid of the marker record
written on firing.  Returns the updated store and the greeting, if one was
produced.  The later branches of the function (evening reflection, overdue
tasks) are outside this rule and not modelled here. -/
def morningEval (store : List MRec) (dist : MRec → ℚ) (user : String)
    (hour : Nat) (today : Int) (name : String) (gIdx : Nat) (newId : String) :
    List MRec × Option String :=
  if 7 ≤ hour ∧ hour < 10 then
    let lastCheckin := queryMemory store dist user 1 ["system", "checkin"]
    let shouldFire : Bool := match lastCheckin with
      | [] => true
      | m :: _ => decide (today > m.record.ts.getD date2000)
    if shouldFire then
      (store ++ [⟨newId, "Morning check-in completed", user, "system,checkin", some today⟩],
       some ((morningMessages name).getD (gIdx % 3) ""))
    else (store, none)
  else (store, none)

/-! ## Concrete instances used by counterexamples and witnesses -/

/-- A store holding a single record owned by user `"u2"`. -/
def storeC1 : List MRec := [⟨"id1", "hello", "u2", "chat", none⟩]

/-- One of ten equidistant chat records of user `"u1"`, all timestamped on
day 19999. -/
def chatRec (i : Nat) : MRec :=
  ⟨"c" ++ toString i, "chat message " ++ toString i, "u1", "chat", some 19999⟩

/-- A store of ten chat records for user `"u1"`. -/
def storeC6 : List MRec := (List.range 10).map chatRec

/-- A distance assignment for the query `"morning check-in"` under which
every chat record is nearer to the query than the check-in marker is. -/
def distC6 : MRec → ℚ :=
  fun r => if r.text = "Morning check-in completed" then 99 else 1

/-! ## Personality engine (`app/personality.py`, class `PersonalityTraits`)

Every call into `random` is replaced by an explicit argument: each
`random.random() > p` test becomes a `Bool` field and each
`random.choice(xs)` / `random.randint(0, n)` becomes a `Nat` field used
modulo the length of the list it indexes (so every value of the field
corresponds to a choice the Python code can actually make).  The draws a
single `get_style` call can consume are bundled in one structure. -/
structure StyleDraws where
  /-- `random.random() > 0.7` at personality.py line 383 (prepend filler). -/
  addFiller : Bool
  /-- `random.choice(fillers)` at line 393 resp. 395. -/
  fillerIdx : Nat
  /-- `random.random() > 0.5` at line 392 (comma variant of the filler). -/
  commaVariant : Bool
  /-- `random.random() > 0.7` at line 233 (supportive follow-up). -/
  supFollow : Bool
  /-- `random.choice(supportive_phrases)` at line 240 resp. 242. -/
  supPhraseIdx : Nat
  /-- `random.choice(follow_ups)` at line 240. -/
  supFollowIdx : Nat
  /-- `random.random() > 0.7` inside the phrase at line 258. -/
  motP0 : Bool
  /-- `random.random() > 0.5` inside the phrase at line 260. -/
  motP2 : Bool
  /-- `random.random() > 0.6` inside the phrase at line 262. -/
  motP4 : Bool
  /-- `random.random() > 0.6` at line 266 (add emphasis emoji). -/
  motEmph : Bool
  /-- `random.choice(motivational_phrases)` at line 268 resp. 270. -/
  motPhraseIdx : Nat
  /-- `random.randint(0, 4)` at line 267. -/
  motEmphIdx : Nat
  /-- `random.choice(firm_openings)` at line 300. -/
  firmOpenIdx : Nat
  /-- `random.choice(firm_closings)` at line 301. -/
  firmCloseIdx : Nat
  /-- `random.random() > 0.7` at line 304 (insert name into closing). -/
  firmUseName : Bool
  /-- `random.randint` draws at lines 324 to 326 (emoji replacement picks). -/
  playRep0 : Nat
  playRep1 : Nat
  playRep2 : Nat
  /-- `random.random() > 0.7` at line 331, one per punctuation element. -/
  playInj0 : Bool
  playInj1 : Bool
  playInj2 : Bool
  /-- `random.random() > 0.8` at line 337 (append playful aside). -/
  playAside : Bool
  /-- `random.choice(playfulness)` at line 348. -/
  playAsideIdx : Nat
  /-- `random.random() > 0.7` at line 351 (nickname substitution). -/
  playNick : Bool
  /-- `random.choice(nicknames)` at line 359. -/
  playNickIdx : Nat
deriving DecidableEq

/-- Lowercase the first character, keep the rest:
`styled_message[0].lower() + styled_message[1:]` (personality.py line 393;
the Python expression raises on an empty string, which no caller ever
passes since every style output starts with a nonempty opening or with the
base message followed by a space and a phrase). -/
def lowerFirst (s : String) : String :=
  match s.data with
  | [] => s
  | c :: cs => String.mk (Char.toLower c :: cs)

/-- The filler pool of `get_style` (personality.py lines 384 to 391). -/
def fillers : List String :=
  ["You know", "Well", "So", "I mean", "Honestly", "Actually"]

/-- The filler-prepending tail of `get_style` (personality.py lines 382 to
397). -/
def applyFiller (d : StyleDraws) (s : String) : String :=
  if d.addFiller then
    let filler := fillers.getD (d.fillerIdx % 6) ""
    if d.commaVariant then filler ++ ", " ++ lowerFirst s
    else filler ++ "... " ++ s
  else s

/-- `PersonalityTraits._supportive_style` (personality.py lines 210 to
242).  `userName = none` models the Python default `user_name=None`; the
phrases personalize only when a nonempty name is given, matching the
truthiness test `if name`. -/
def supportiveStyle (d : StyleDraws) (message : String)
    (userName : Option String) : String :=
  let name := userName.getD ""
  let phrases : List String :=
    ["I believe in you" ++ (if name ≠ "" then ", " ++ name ++ "!" else "!"),
     "You\x27ve got this" ++ (if name ≠ "" then ", " ++ name ++ "!" else "!"),
     "I\x27m here for you, every step of the way.",
     "Remember how far you\x27ve come" ++ (if name ≠ "" then ", " ++ name ++ "!" else "!"),
     "Sending you good vibes! ✨",
     "I\x27m in your corner! 🥊"]
  let phrase := phrases.getD (d.supPhraseIdx % 6) ""
  if d.supFollow then
    let followUps : List String :=
      [" How does that sound?", " What do you think?", " You with me?", " Cool?"]
    message ++ " " ++ phrase ++ followUps.getD (d.supFollowIdx % 4) ""
  else message ++ " " ++ phrase

/-- `PersonalityTraits._motivational_style` (personality.py lines 244 to
270).  The phrase list itself embeds `random.random()` calls inside
f-strings; those draws are the `motP` fields. -/
def motivationalStyle (d : StyleDraws) (message : String)
    (userName : Option String) : String :=
  let name := userName.getD ""
  let phrases : List String :=
    ["Let\x27s turn those dreams into plans" ++
       (if d.motP0 then " like the rockstar you are" else "") ++ "!",
     "Every small step counts! Rome wasn\x27t built in a day, right? 🏛️",
     "You\x27re capable of amazing things" ++
       (if d.motP2 then " when you put your mind to it" else "") ++ "!",
     "Success is built one day at a time, and you\x27re doing great! 🚀",
     "The only limit is the one you set for yourself" ++
       (if name ≠ "" ∧ d.motP4 then " " ++ name else "") ++ "!"]
  let phrase := phrases.getD (d.motPhraseIdx % 5) ""
  if d.motEmph then
    let emphasis := (["💪", "✨", "🔥", "🚀", "🌟"] : List String).getD (d.motEmphIdx % 5) ""
    message ++ " " ++ phrase ++ " " ++ emphasis
  else message ++ " " ++ phrase

/-- `PersonalityTraits._firm_style` (personality.py lines 272 to 307). -/
def firmStyle (d : StyleDraws) (message : String)
    (userName : Option String) : String :=
  let name := userName.getD ""
  let opening := (["I need to be real with you: ",
                   "Let\x27s be honest here: ",
                   "I\x27m saying this because I care: ",
                   "Time for some tough love: "] : List String).getD (d.firmOpenIdx % 4) ""
  let closing0 := ([" I know you can handle this.",
                    " You\x27re stronger than you think.",
                    " I believe in your ability to do this.",
                    " Let\x27s tackle this together."] : List String).getD (d.firmCloseIdx % 4) ""
  let closing :=
    if name ≠ "" ∧ d.firmUseName then " " ++ name ++ ", " ++ pyLstrip closing0
    else closing0
  opening ++ message ++ closing

/-- `replacement.join(parts[:-1]) + punct + parts[-1]` applied when the
punctuation occurs in the message and the per-element draw succeeds
(`_playful_style`, personality.py lines 330 to 334). -/
def playfulInject (punct : Char) (repl : String) (doIt : Bool)
    (m : String) : String :=
  let parts := (splitChar punct m.data).map String.mk
  if doIt ∧ parts.length > 1 then
    String.intercalate repl parts.dropLast ++ String.mk [punct] ++ parts.getLast!
  else m

/-- `PersonalityTraits._playful_style` (personality.py lines 309 to 361).
Python `str.replace` for the nickname substitution is modelled by
`String.replace` (replace every occurrence). -/
def playfulStyle (d : StyleDraws) (message : String)
    (userName : Option String) : String :=
  let name := userName.getD ""
  let rep0 := ([" 😊", " 😄", " 😎", " 🤔", " 🤗"] : List String).getD (d.playRep0 % 5) ""
  let rep1 := (["! 😊", "! 🎉", ". 😄", ". 😊", "."] : List String).getD (d.playRep1 % 5) ""
  let rep2 := (["? 🤔", "? 🧐", "?"] : List String).getD (d.playRep2 % 3) ""
  let m1 := playfulInject ' ' rep0 d.playInj0 message
  let m2 := playfulInject '.' rep1 d.playInj1 m1
  let m3 := playfulInject '?' rep2 d.playInj2 m2
  let m4 :=
    if d.playAside then
      m3 ++ " " ++ (["Just saying!", "No pressure though!", "Easy peasy!",
        "Piece of cake!", "You know what I mean?", "Right?",
        "Am I right or am I right?", "Boom! 💥"] : List String).getD (d.playAsideIdx % 8) ""
    else m3
  if name ≠ "" ∧ d.playNick then
    m4.replace name (([name ++ "-inator", "Captain " ++ name,
      name ++ " the Great", "Super " ++ name,
      name ++ " Mc" ++ name ++ "face"] : List String).getD (d.playNickIdx % 5) "")
  else m4

/-- The dictionary lookup `self.styles.get(style_name.lower(),
(self._supportive_style, 0.4))` (personality.py line 376): resolve the
lowercased style name to its transform, defaulting to supportive. -/
def styleFun (key : String) :
    StyleDraws → String → Option String → String :=
  if key = "supportive" then supportiveStyle
  else if key = "motivational" then motivationalStyle
  else if key = "playful" then playfulStyle
  else if key = "firm" then firmStyle
  else supportiveStyle

/-- `PersonalityTraits.get_style` (personality.py lines 363 to 397). -/
def getStyle (d : StyleDraws) (styleName message : String)
    (userName : Option String) : String :=
  applyFiller d (styleFun (pyLower styleName) d message userName)

/-! ## Urgent tasks (`PersonalityTraits.check_urgent_tasks`,
personality.py lines 559 to 579) -/

/-- The `due_date` field of a stored task dictionary, as the Python code
discriminates it: absent or falsy (`if due_date` fails), a string that
`datetime.fromisoformat` rejects, a non-string value such as a `datetime`
object (`isinstance(due_date, str)` fails; it still carries a point in
time, kept here so theorems can speak about how far past it is), or a
parseable ISO string with its parsed timestamp. -/
inductive DueDate where
  | missing : DueDate
  | badString : DueDate
  | nonString (d : Int) : DueDate
  | validStr (d : Int) : DueDate
deriving DecidableEq

/-- A task dictionary as consumed by `check_urgent_tasks`: `due_date`,
`completed` (defaulted to `False` by `task.get`), `description`. -/
structure PTask where
  due : DueDate
  completed : Bool
  description : String
deriving DecidableEq

/-- The loop body test of `check_urgent_tasks` (personality.py lines 564 to
572): a task is collected as urgent iff its `due_date` is a parseable ISO
string whose value is strictly before `now` and the task is not completed;
every other shape of `due_date` is skipped (`continue` on parse failure,
guard on the string check). -/
def isUrgent (now : Int) (t : PTask) : Bool :=
  match t.due with
  | DueDate.validStr d => decide (d < now) && !t.completed
  | _ => false

/-- `PersonalityTraits.check_urgent_tasks(tasks)` (personality.py lines 559
to 579).  `now` is `datetime.now()`; `d` carries the random draws consumed
by the `get_style("firm", ...)` call on the notice. -/
def checkUrgentTasks (d : StyleDraws) (now : Int) (tasks : List PTask) :
    Option String :=
  let urgent := tasks.filter (isUrgent now)
  if urgent = [] then none
  else
    let taskList := String.intercalate "\n"
      ((urgent.take 3).map (fun t => "- " ++ t.description))
    some (getStyle d "firm"
      ("⚠️ You have " ++ toString urgent.length ++ " overdue task" ++
        (if urgent.length > 1 then "s" else "") ++ ":\n" ++ taskList ++
        "\n\nLet\x27s tackle these together! Which one should we start with?")
      none)

/-! ## Conversation history
(`PersonalityTraits._update_conversation_history`, personality.py lines 544
to 557) -/

/-- One entry of `self.conversation_history`. -/
structure HistEntry where
  message : String
  sender : String
  name : String
  timestamp : String
deriving DecidableEq

/-- `_update_conversation_history(message, sender, is_user)`: append the
entry, then keep only the last 20 entries (`self.conversation_history[-20:]`)
whenever the length exceeds 20.  `ts` is the `datetime.now().isoformat()`
stamp. -/
def updateConversationHistory (h : List HistEntry) (message sender : String)
    (isUser : Bool) (ts : String) : List HistEntry :=
  let h2 := h ++ [⟨message, if isUser then "user" else "ai", sender, ts⟩]
  if h2.length > 20 then h2.drop (h2.length - 20) else h2

/-! ## Response generator (`app/suggestion_engine.py`, `generate_response`,
lines 160 to 194)

The collaborators the orchestration calls (`get_context`, the proactive
check, the Gemini request, the personality fallback) are external or
IO-bound; each is modelled as an `Except`-valued field of a collaborator
record, so a theorem about the orchestration quantifies over every
combination of success and failure of the pieces.  Exceptions are Python
`Exception` values; their payload is irrelevant to the control flow. -/

/-- The `context` dictionary built by `get_context`
(suggestion_engine.py lines 87 to 158). -/
structure ContextBundle where
  profileInfo : String
  dailyPlan : String
  memories : String
  chatHistory : String
  currentTime : String
deriving DecidableEq

/-- An uncaught Python exception (its payload does not drive any branch). -/
inductive PyErr where
  | failure : PyErr
deriving DecidableEq

/-- The four fallible collaborators `generate_response` orchestrates. -/
structure Collab where
  getContext : Except PyErr ContextBundle
  proactive : ContextBundle → Except PyErr (Option String)
  gemini : ContextBundle → Except PyErr String
  fallback : ContextBundle → Except PyErr String

/-- Lines 181 to 190 of suggestion_engine.py: try Gemini; on an exception
or an empty extraction, use the personality fallback (whose own failure
propagates to the top-level handler). -/
def geminiOrFallback (c : Collab) (ctx : ContextBundle) : Except PyErr String :=
  match c.gemini ctx with
  | Except.ok t => if t ≠ "" then Except.ok t else c.fallback ctx
  | Except.error _ => c.fallback ctx

/-- The body of `generate_response` without its top-level `try/except`
(suggestion_engine.py lines 172 to 190): build context, evaluate the
proactive check, short-circuit on a proactive message when the incoming
message is empty or shorter than 3 characters after stripping, otherwise
Gemini with personality fallback.  An `Except.error` value is an exception
propagating out of the body. -/
def generateResponseBody (c : Collab) (message : String) :
    Except PyErr String :=
  match c.getContext with
  | Except.error e => Except.error e
  | Except.ok ctx =>
    match c.proactive ctx with
    | Except.error e => Except.error e
    | Except.ok pro =>
      match pro with
      | some p =>
        if pyStrip message = "" ∨ (pyStrip message).length < 3 then Except.ok p
        else geminiOrFallback c ctx
      | none => geminiOrFallback c ctx

/-- The fixed apology returned by the top-level `except` handler
(suggestion_engine.py line 194). -/
def apologyString : String :=
  "I\x27m having trouble thinking of a response right now. Could you try asking me something else?"

/-- `generate_response(user_id, message, chat_history)` (suggestion_engine.py
lines 160 to 194): the body wrapped in the top-level `try/except Exception`
that replaces any escaped exception with the fixed apology. -/
def generateResponse (c : Collab) (message : String) : String :=
  match generateResponseBody c message with
  | Except.ok s => s
  | Except.error _ => apologyString

/-! ## Fallback embeddings (`MemorySystem._get_fallback_embeddings`,
memory.py lines 88 to 101)

The code hashes the text with `hashlib.md5` and expands the 16 digest bytes
cyclically into 768 values `byte / 255.0 - 0.5`.  MD5 is implemented here
from its specification (RFC 1321) on `Nat` with explicit reduction modulo
2^32, bytes as naturals below 256; the arithmetic `byte / 255.0 - 0.5` is
exact in binary floating point at the boundary bytes 0 and 255, so
rationals model the produced values faithfully where the range claim is
decided. -/

/-- The 64 MD5 sine-derived round constants. -/
def md5K : List Nat :=
  [0xd76aa478, 0xe8c7b756, 0x242070db, 0xc1bdceee,
   0xf57c0faf, 0x4787c62a, 0xa8304613, 0xfd469501,
   0x698098d8, 0x8b44f7af, 0xffff5bb1, 0x895cd7be,
   0x6b901122, 0xfd987193, 0xa679438e, 0x49b40821,
   0xf61e2562, 0xc040b340, 0x265e5a51, 0xe9b6c7aa,
   0xd62f105d, 0x02441453, 0xd8a1e681, 0xe7d3fbc8,
   0x21e1cde6, 0xc33707d6, 0xf4d50d87, 0x455a14ed,
   0xa9e3e905, 0xfcefa3f8, 0x676f02d9, 0x8d2a4c8a,
   0xfffa3942, 0x8771f681, 0x6d9d6122, 0xfde5380c,
   0xa4beea44, 0x4bdecfa9, 0xf6bb4b60, 0xbebfbc70,
   0x289b7ec6, 0xeaa127fa, 0xd4ef3085, 0x04881d05,
   0xd9d4d039, 0xe6db99e5, 0x1fa27cf8, 0xc4ac5665,
   0xf4292244, 0x432aff97, 0xab9423a7, 0xfc93a039,
   0x655b59c3, 0x8f0ccc92, 0xffeff47d, 0x85845dd1,
   0x6fa87e4f, 0xfe2ce6e0, 0xa3014314, 0x4e0811a1,
   0xf7537e82, 0xbd3af235, 0x2ad7d2bb, 0xeb86d391]

/-- The 64 MD5 per-round left-rotation amounts. -/
def md5S : List Nat :=
  [7, 12, 17, 22, 7, 12, 17, 22, 7, 12, 17, 22, 7, 12, 17, 22,
   5, 9, 14, 20, 5, 9, 14, 20, 5, 9, 14, 20, 5, 9, 14, 20,
   4, 11, 16, 23, 4, 11, 16, 23, 4, 11, 16, 23, 4, 11, 16, 23,
   6, 10, 15, 21, 6, 10, 15, 21, 6, 10, 15, 21, 6, 10, 15, 21]

/-- 32-bit left rotation of a word below 2^32. -/
def rotl32 (x s : Nat) : Nat :=
  ((x <<< s) ||| (x >>> (32 - s))) % 4294967296

/-- Bitwise complement on 32-bit words. -/
def not32 (x : Nat) : Nat := 4294967295 ^^^ x

/-- One MD5 round applied to the running state `(a, b, c, d)` with the
16-word message block `M`. -/
def md5Round (M : List Nat) (st : Nat × Nat × Nat × Nat) (i : Nat) :
    Nat × Nat × Nat × Nat :=
  let a := st.1
  let b := st.2.1
  let c := st.2.2.1
  let d := st.2.2.2
  let fg : Nat × Nat :=
    if i < 16 then ((b &&& c) ||| (not32 b &&& d), i)
    else if i < 32 then ((d &&& b) ||| (not32 d &&& c), (5 * i + 1) % 16)
    else if i < 48 then (b ^^^ c ^^^ d, (3 * i + 5) % 16)
    else (c ^^^ (b ||| not32 d), (7 * i) % 16)
  let f2 := (fg.1 + a + md5K.getD i 0 + M.getD fg.2 0) % 4294967296
  (d, (b + rotl32 f2 (md5S.getD i 0)) % 4294967296, b, c)

/-- Process one 64-byte block (given as 16 little-endian words). -/
def md5Block (st : Nat × Nat × Nat × Nat) (M : List Nat) :
    Nat × Nat × Nat × Nat :=
  let r := (List.range 64).foldl (md5Round M) st
  ((st.1 + r.1) % 4294967296, (st.2.1 + r.2.1) % 4294967296,
   (st.2.2.1 + r.2.2.1) % 4294967296, (st.2.2.2 + r.2.2.2) % 4294967296)

/-- Read 16 little-endian 32-bit words out of a 64-byte block. -/
def toWordsLE (bytes : List Nat) : List Nat :=
  (List.range 16).map (fun j =>
    bytes.getD (4 * j) 0 + 256 * bytes.getD (4 * j + 1) 0 +
    65536 * bytes.getD (4 * j + 2) 0 + 16777216 * bytes.getD (4 * j + 3) 0)

/-- MD5 padding: append `0x80`, zero bytes up to 56 mod 64, then the bit
length as a 64-bit little-endian quantity. -/
def md5Pad (msg : List Nat) : List Nat :=
  let L := msg.length
  let z := (119 - L % 64) % 64
  let bitLen := (8 * L) % 18446744073709551616
  msg ++ [128] ++ List.replicate z 0 ++
    (List.range 8).map (fun j => (bitLen >>> (8 * j)) % 256)

/-- Serialize one 32-bit word as 4 little-endian bytes. -/
def wordLE (w : Nat) : List Nat :=
  [w % 256, (w >>> 8) % 256, (w >>> 16) % 256, (w >>> 24) % 256]

/-- MD5 of a byte sequence: 16 digest bytes. -/
def md5 (msg : List Nat) : List Nat :=
  let padded := md5Pad msg
  let st := (List.range (padded.length / 64)).foldl
    (fun st i => md5Block st (toWordsLE ((padded.drop (64 * i)).take 64)))
    (0x67452301, 0xefcdab89, 0x98badcfe, 0x10325476)
  wordLE st.1 ++ wordLE st.2.1 ++ wordLE st.2.2.1 ++ wordLE st.2.2.2

/-- UTF-8 encoding of one character (code point below 0x110000). -/
def utf8Bytes (c : Char) : List Nat :=
  let n := c.toNat
  if n < 128 then [n]
  else if n < 2048 then [192 + n / 64, 128 + n % 64]
  else if n < 65536 then
    [224 + n / 4096, 128 + (n / 64) % 64, 128 + n % 64]
  else
    [240 + n / 262144, 128 + (n / 4096) % 64, 128 + (n / 64) % 64, 128 + n % 64]

/-- `text.encode()`: the UTF-8 bytes of the input text. -/
def strBytes (s : String) : List Nat :=
  s.data.foldr (fun c acc => utf8Bytes c ++ acc) []

/-- `hashlib.md5(text.encode()).digest()` (memory.py lines 94 to 95). -/
def md5digest (t : String) : List Nat := md5 (strBytes t)

/-- `_get_fallback_embeddings` for one text (memory.py lines 92 to 100):
768 values `hash_bytes[i % len(hash_bytes)] / 255.0 - 0.5`. -/
def fallbackEmbedding (t : String) : List ℚ :=
  let bs := md5digest t
  (List.range 768).map (fun i => (bs.getD (i % bs.length) 0 : ℚ) / 255 - 1 / 2)

/-! ## Remaining concrete fixtures for witnesses -/

/-- Two records of user `"u1"` tagged `chat` and `mood`. -/
def storeC4 : List MRec :=
  [⟨"a", "t1", "u1", "chat", none⟩, ⟨"b", "t2", "u1", "mood", none⟩]

/-- Distances making record `"a"` the nearer one. -/
def distC4 : MRec → ℚ := fun r => if r.id = "a" then 1 else 2

/-- Four overdue tasks, one future task, one completed past task
(timestamps relative to `now = 10`). -/
def tasksC5 : List PTask :=
  [⟨DueDate.validStr 0, false, "T1"⟩, ⟨DueDate.validStr 1, false, "T2"⟩,
   ⟨DueDate.validStr 2, false, "T3"⟩, ⟨DueDate.validStr 3, false, "T4"⟩,
   ⟨DueDate.validStr 99, false, "Future"⟩, ⟨DueDate.validStr 0, true, "Done"⟩]

/-- Tasks whose `due_date` is respectively a long-past `datetime` object,
an unparseable string, and absent; none completed. -/
def tasksC8 : List PTask :=
  [⟨DueDate.nonString (-1000000), false, "Ancient"⟩,
   ⟨DueDate.badString, false, "Bad"⟩,
   ⟨DueDate.missing, false, "NoDate"⟩]

/-- A fixed assignment of random draws. -/
def d0 : StyleDraws :=
  ⟨false, 0, false, false, 0, 0, false, false, false, false, 0, 0, 0, 0,
   false, 0, 0, 0, false, false, false, false, 0, false, 0⟩

/-- A collaborator record whose context build raises. -/
def collabFail : Collab :=
  ⟨Except.error PyErr.failure, fun _ => Except.ok none,
   fun _ => Except.ok "x", fun _ => Except.ok "y"⟩


/-! ## Helper lemmas about the memory store -/

theorem applyTagFilter_sublist (k : Nat) (tags : List String)
    (l : List MRec) : (applyTagFilter k tags l).Sublist l := by
  unfold applyTagFilter
  split
  · split
    · exact (List.take_sublist _ _).trans
        ((List.take_sublist _ _).trans (List.filter_sublist _))
    · exact List.take_sublist _ _
  · exact List.Sublist.refl _

theorem mem_overfetch (store : List MRec) (dist : MRec → ℚ) (u : String)
    (k : Nat) (r : MRec) (hr : r ∈ overfetch store dist u k) :
    r ∈ store ∧ (u ≠ "" → r.user_id = u) := by
  unfold overfetch chromaQuery at hr
  by_cases hu : u = ""
  · subst hu
    simp only [if_pos rfl] at hr
    have hr2 := List.mem_of_mem_take hr
    rw [List.mem_insertionSort] at hr2
    exact ⟨hr2, fun h => absurd rfl h⟩
  · simp only [if_neg hu] at hr
    have hr2 := List.mem_of_mem_take hr
    rw [List.mem_insertionSort, List.mem_filter] at hr2
    exact ⟨hr2.1, fun _ => by simpa using hr2.2⟩

theorem sorted_overfetch (store : List MRec) (dist : MRec → ℚ) (u : String)
    (k : Nat) : List.Sorted (distLE dist) (overfetch store dist u k) := by
  unfold overfetch chromaQuery
  exact (List.sorted_insertionSort (distLE dist) _).sublist (List.take_sublist _ _)

theorem mem_postProcess (dist : MRec → ℚ) (k : Nat) (tags : List String)
    (l : List MRec) (m : Mem) (hm : m ∈ postProcess dist k tags l) :
    m.record ∈ l ∧ m.distance = dist m.record := by
  unfold postProcess at hm
  split at hm
  · simp at hm
  · split at hm
    · simp at hm
    · rw [List.mem_map] at hm
      obtain ⟨r, hr, rfl⟩ := hm
      exact ⟨(applyTagFilter_sublist k tags l).subset (List.mem_of_mem_take hr), rfl⟩

theorem sorted_postProcess (dist : MRec → ℚ) (k : Nat) (tags : List String)
    (l : List MRec) (hl : List.Sorted (distLE dist) l) :
    List.Sorted (fun a b : Mem => a.distance ≤ b.distance)
      (postProcess dist k tags l) := by
  unfold postProcess
  split
  · exact List.sorted_nil
  · split
    · exact List.sorted_nil
    · exact List.Pairwise.map _ (fun a b h => h)
        ((hl.sublist ((List.take_sublist _ _).trans
          (applyTagFilter_sublist k tags l))))

theorem length_postProcess (dist : MRec → ℚ) (k : Nat) (tags : List String)
    (l : List MRec) : (postProcess dist k tags l).length ≤ k := by
  unfold postProcess
  split
  · simp
  · split
    · simp
    · rw [List.length_map, List.length_take]
      exact min_le_left _ _

/-! ## Claim C1: per-user isolation of memory retrieval -/

/-- C1 (amended): for every store, distance assignment, requested count and
tag filter, `query_memory` called with a NONEMPTY user id returns only
records whose stored `user_id` metadata is that user: the `where` filter is
applied on retrieval and the post-processing never reintroduces foreign
records.  (The amendment restricts the claim to nonempty user ids: for the
empty — falsy — user id the code drops the `where` filter entirely, see the
counterexample.) -/
theorem query_memory_user_isolation (store : List MRec) (dist : MRec → ℚ)
    (u : String) (k : Nat) (tags : List String) (hu : u ≠ "") :
    ∀ m ∈ queryMemory store dist u k tags, m.record.user_id = u := by
  intro m hm
  unfold queryMemory at hm
  exact (mem_overfetch store dist u k m.record
    (mem_postProcess dist k tags _ m hm).1).2 hu

/-- C1 counterexample: the claim as stated quantifies over every pair of
distinct users.  For the pair `u1 = ""` and `u2 = "u2"` it fails: the code
builds `where = {"user_id": user_id} if user_id else None`, so a query on
behalf of the empty user id is unfiltered and returns the record stored
under `"u2"`. -/
theorem query_memory_empty_user_leak :
    ((queryMemory storeC1 (fun _ => 0) "" 5 []).map
      (fun m => m.record.user_id) = ["u2"]) ∧ ("" : String) ≠ "u2" := by
  constructor
  · decide
  · decide

/-- Witness for `query_memory_user_isolation` at a concrete instance. -/
theorem query_memory_user_isolation_witness :
    ("u1" : String) ≠ "" ∧
    (Mem.mk ⟨"a", "t1", "u1", "chat", none⟩ 1).record.user_id = "u1" :=
  ⟨by decide,
   query_memory_user_isolation storeC4 distC4 "u1" 5 [] (by decide) _ (by decide)⟩

/-! ## Claim C3: result count bound and ordering -/

/-- C3: for every store, distance assignment, user, requested count `k` and
tag filter (including none), `query_memory` returns at most `k` results and
they are sorted by non-decreasing distance. -/
theorem query_memory_length_sorted (store : List MRec) (dist : MRec → ℚ)
    (u : String) (k : Nat) (tags : List String) :
    (queryMemory store dist u k tags).length ≤ k ∧
    List.Sorted (fun a b : Mem => a.distance ≤ b.distance)
      (queryMemory store dist u k tags) :=
  ⟨length_postProcess dist k tags _,
   sorted_postProcess dist k tags _ (sorted_overfetch store dist u k)⟩

/-! ## Claim C4: tag filtering with fallback to the unfiltered result -/

/-- C4: with a nonempty tag filter, if the tag-intersection test applied to
the over-fetched candidate set leaves at least one survivor, the result is
the first `k` survivors in nearest-first order; if it leaves none while
unfiltered candidates exist, the result is the unfiltered over-fetched
candidate set truncated to `k`. -/
theorem applyTagFilter_of_survivors (k : Nat) (tags : List String)
    (l : List MRec) (htags : tags ≠ [])
    (hsurv : l.filter (tagMatch tags) ≠ []) (hk : 0 < k) :
    applyTagFilter k tags l = (l.filter (tagMatch tags)).take k := by
  unfold applyTagFilter
  have hfil : (l.filter (tagMatch tags)).take k ≠ [] := by
    rw [Ne, List.take_eq_nil_iff]
    push_neg
    exact ⟨by omega, hsurv⟩
  rw [if_pos htags, if_pos hfil, List.take_take, min_self]

theorem applyTagFilter_of_no_survivors (k : Nat) (tags : List String)
    (l : List MRec) (htags : tags ≠ [])
    (hsurv : l.filter (tagMatch tags) = []) :
    applyTagFilter k tags l = l.take k := by
  unfold applyTagFilter
  rw [if_pos htags, if_neg (fun h => h (by rw [hsurv, List.take_nil]))]

theorem query_memory_tag_fallback (store : List MRec) (dist : MRec → ℚ)
    (u : String) (k : Nat) (tags : List String) (htags : tags ≠ []) :
    ((overfetch store dist u k).filter (tagMatch tags) ≠ [] →
      queryMemory store dist u k tags =
        (((overfetch store dist u k).filter (tagMatch tags)).take k).map
          (fun r => Mem.mk r (dist r))) ∧
    ((overfetch store dist u k).filter (tagMatch tags) = [] →
     overfetch store dist u k ≠ [] →
      queryMemory store dist u k tags =
        ((overfetch store dist u k).take k).map (fun r => Mem.mk r (dist r))) := by
  set cand := overfetch store dist u k with hcand
  constructor
  · intro hsurv
    have hcne : cand ≠ [] := by
      intro h
      rw [h] at hsurv
      simp at hsurv
    rcases Nat.eq_zero_or_pos k with hk | hk
    · subst hk
      simp [queryMemory, postProcess, applyTagFilter, ← hcand, if_neg hcne, htags]
    · have hfil : (cand.filter (tagMatch tags)).take k ≠ [] := by
        rw [Ne, List.take_eq_nil_iff]
        push_neg
        exact ⟨by omega, hsurv⟩
      unfold queryMemory postProcess
      rw [← hcand, if_neg hcne,
        applyTagFilter_of_survivors k tags cand htags hsurv hk,
        if_neg hfil, List.take_take, min_self]
  · intro hsurv hcne
    rcases Nat.eq_zero_or_pos k with hk | hk
    · subst hk
      simp [queryMemory, postProcess, applyTagFilter, ← hcand, if_neg hcne, htags]
    · have hctk : cand.take k ≠ [] := by
        rw [Ne, List.take_eq_nil_iff]
        push_neg
        exact ⟨by omega, hcne⟩
      unfold queryMemory postProcess
      rw [← hcand, if_neg hcne,
        applyTagFilter_of_no_survivors k tags cand htags hsurv,
        if_neg hctk, List.take_take, min_self]

/-- Witness for `query_memory_tag_fallback` at concrete instances covering
both branches: the `"mood"` filter matches one stored record; the
`"missing"` filter matches none and falls back to the unfiltered result. -/
theorem query_memory_tag_fallback_witness :
    ((["mood"] : List String) ≠ [] ∧
     queryMemory storeC4 distC4 "u1" 5 ["mood"] =
       (((overfetch storeC4 distC4 "u1" 5).filter (tagMatch ["mood"])).take 5).map
         (fun r => Mem.mk r (distC4 r))) ∧
    ((["missing"] : List String) ≠ [] ∧
     queryMemory storeC4 distC4 "u1" 5 ["missing"] =
       ((overfetch storeC4 distC4 "u1" 5).take 5).map
         (fun r => Mem.mk r (distC4 r))) :=
  ⟨⟨by decide,
    (query_memory_tag_fallback storeC4 distC4 "u1" 5 ["mood"] (by decide)).1
      (by decide)⟩,
   ⟨by decide,
    (query_memory_tag_fallback storeC4 distC4 "u1" 5 ["missing"] (by decide)).2
      (by decide) (by decide)⟩⟩

/-! ## Claim C6: morning check-in at most once per day -/

/-- If every pre-existing record of the user lacks the `system`/`checkin`
tags and there are at most 9 of them, then the `k = 1` marker query issued
by the morning rule right after a marker was appended returns exactly that
marker: the pool (at most 10 records) fits entirely inside the over-fetched
candidate set, and the marker is the unique tag-filter survivor. -/
theorem query_returns_fresh_marker (store : List MRec) (dist : MRec → ℚ)
    (u : String) (marker : MRec) (hu : u ≠ "")
    (huser : ∀ r ∈ store, r.user_id = u) (hum : marker.user_id = u)
    (hlen : store.length ≤ 9)
    (htags : ∀ r ∈ store, tagMatch ["system", "checkin"] r = false)
    (hmtag : tagMatch ["system", "checkin"] marker = true) :
    queryMemory (store ++ [marker]) dist u 1 ["system", "checkin"] =
      [Mem.mk marker (dist marker)] := by
  have hpool : (store ++ [marker]).filter (fun r => decide (r.user_id = u)) =
      store ++ [marker] := by
    rw [List.filter_eq_self]
    intro r hr
    rcases List.mem_append.mp hr with h | h
    · exact decide_eq_true (huser r h)
    · rw [List.mem_singleton.mp h]
      exact decide_eq_true hum
  have hcand : overfetch (store ++ [marker]) dist u 1 =
      ((store ++ [marker]).insertionSort (distLE dist)) := by
    unfold overfetch chromaQuery
    rw [if_neg hu]
    simp only [hpool]
    apply List.take_of_length_le
    rw [(List.perm_insertionSort (distLE dist) _).length_eq]
    simp only [List.length_append, List.length_singleton]
    omega
  have hperm : ((store ++ [marker]).insertionSort (distLE dist)).filter
      (tagMatch ["system", "checkin"]) = [marker] := by
    have hstore : store.filter (tagMatch ["system", "checkin"]) = [] :=
      List.filter_eq_nil_iff.mpr
        (fun a ha => by rw [htags a ha]; exact Bool.false_ne_true)
    have h1 := (List.perm_insertionSort (distLE dist)
      (store ++ [marker])).filter (tagMatch ["system", "checkin"])
    rw [List.filter_append, hstore, List.nil_append] at h1
    apply List.perm_singleton.mp
    simpa [List.filter, hmtag] using h1
  have hne : (store ++ [marker]).insertionSort (distLE dist) ≠ [] := by
    intro h
    have := (List.perm_insertionSort (distLE dist) (store ++ [marker])).length_eq
    rw [h] at this
    simp at this
  unfold queryMemory
  rw [hcand]
  unfold postProcess
  rw [if_neg hne,
    applyTagFilter_of_survivors 1 ["system", "checkin"] _ (by simp)
      (by rw [hperm]; simp) Nat.one_pos,
    hperm]
  simp

/-- C6 (amended): the morning check-in rule fires at most once per day
PROVIDED the marker query of a later evaluation actually returns the day's
marker — guaranteed when the user's stored records all fit into the
over-fetched candidate set (at most 9 records before the marker) and none
of them besides the marker carries a `system` or `checkin` tag.  Stated for
two consecutive evaluations with the same current day: at most one of them
produces a greeting.  Without the proviso the rule can fire twice in one
day, because the marker query is a bounded similarity search
(`n_results = max(10, 3k)`) whose tag filter falls back to the unfiltered
nearest neighbours; see the counterexample. -/
theorem morning_checkin_at_most_once (store : List MRec) (dist : MRec → ℚ)
    (u : String) (hour : Nat) (today : Int) (name : String) (g1 g2 : Nat)
    (id1 id2 : String) (hu : u ≠ "")
    (huser : ∀ r ∈ store, r.user_id = u) (hlen : store.length ≤ 9)
    (htags : ∀ r ∈ store, tagMatch ["system", "checkin"] r = false) :
    ¬(((morningEval store dist u hour today name g1 id1).2).isSome ∧
      ((morningEval (morningEval store dist u hour today name g1 id1).1
          dist u hour today name g2 id2).2).isSome) := by
  rintro ⟨h1, h2⟩
  by_cases hw : 7 ≤ hour ∧ hour < 10
  · unfold morningEval at h1 h2
    rw [if_pos hw] at h1 h2
    by_cases hf : (match queryMemory store dist u 1 ["system", "checkin"] with
      | [] => true
      | m :: _ => decide (today > m.record.ts.getD date2000)) = true
    · rw [if_pos hf] at h1 h2
      simp only at h2
      rw [if_pos hw] at h2
      rw [query_returns_fresh_marker store dist u
        ⟨id1, "Morning check-in completed", u, "system,checkin", some today⟩
        hu huser rfl hlen htags rfl] at h2
      simp at h2
    · rw [if_neg hf] at h1
      simp at h1
  · unfold morningEval at h1
    rw [if_neg hw] at h1
    simp at h1

/-- C6 counterexample: with ten chat memories all nearer to the query
embedding than the check-in marker, two same-morning evaluations BOTH
produce a greeting: the marker written by the first firing is crowded out
of the ten over-fetched nearest neighbours of the second query, whose tag
filter then falls back to the unfiltered chat records, whose timestamp is
yesterday. -/
theorem morning_checkin_fires_twice :
    ((morningEval storeC6 distC6 "u1" 8 20000 "Ann" 0 "m1").2).isSome = true ∧
    ((morningEval (morningEval storeC6 distC6 "u1" 8 20000 "Ann" 0 "m1").1
        distC6 "u1" 8 20000 "Ann" 1 "m2").2).isSome = true := by
  constructor
  · decide
  · decide

/-- Witness for `morning_checkin_at_most_once` at a concrete instance (an
empty store: the first evaluation fires, the second finds the marker). -/
theorem morning_checkin_at_most_once_witness :
    ("u1" : String) ≠ "" ∧
    ¬(((morningEval [] (fun _ => 0) "u1" 8 20000 "Ann" 0 "m1").2).isSome ∧
      ((morningEval (morningEval [] (fun _ => 0) "u1" 8 20000 "Ann" 0 "m1").1
          (fun _ => 0) "u1" 8 20000 "Ann" 1 "m2").2).isSome) :=
  ⟨by decide,
   morning_checkin_at_most_once [] (fun _ => 0) "u1" 8 20000 "Ann" 0 1 "m1" "m2"
     (by decide) (by simp) (by simp) (by simp)⟩

/-! ## Claim C5 and C8: urgent task check -/

/-- C5: over task lists in the canonical representation (every `due_date`
an ISO-format string, i.e. `DueDate.validStr`): if every task is
future-dated (not strictly before `now`) or completed, the check returns
nothing; if at least one task is strictly overdue and not completed, it
returns a firm-styled notice whose text states the exact overdue count and
lists the first `min(3, count)` task descriptions (never more than 3). -/
theorem check_urgent_tasks_spec (d : StyleDraws) (now : Int)
    (tasks : List PTask)
    (_hvalid : ∀ t ∈ tasks, ∃ dd, t.due = DueDate.validStr dd) :
    ((∀ t ∈ tasks, t.completed = true ∨
        ∀ dd, t.due = DueDate.validStr dd → now ≤ dd) →
      checkUrgentTasks d now tasks = none) ∧
    ((∃ t ∈ tasks, t.completed = false ∧
        ∃ dd, t.due = DueDate.validStr dd ∧ dd < now) →
      checkUrgentTasks d now tasks =
        some (getStyle d "firm"
          ("⚠️ You have " ++ toString (tasks.filter (isUrgent now)).length ++
            " overdue task" ++
            (if (tasks.filter (isUrgent now)).length > 1 then "s" else "") ++
            ":\n" ++
            String.intercalate "\n"
              (((tasks.filter (isUrgent now)).take 3).map
                (fun t => "- " ++ t.description)) ++
            "\n\nLet\x27s tackle these together! Which one should we start with?")
          none) ∧
      (((tasks.filter (isUrgent now)).take 3).map
        (fun t => t.description)).length ≤ 3) := by
  constructor
  · intro h
    have hnil : tasks.filter (isUrgent now) = [] := by
      apply List.filter_eq_nil_iff.mpr
      intro t ht hcon
      rcases hdue : t.due with _ | _ | dd | dd <;>
        simp [isUrgent, hdue] at hcon
      rcases h t ht with hc | hfut
      · rw [hc] at hcon
        exact absurd hcon.2 (by simp)
      · exact absurd hcon.1 (by simpa using hfut dd hdue)
    simp [checkUrgentTasks, hnil]
  · rintro ⟨t, ht, hc, dd, hdue, hlt⟩
    have hmem : t ∈ tasks.filter (isUrgent now) :=
      List.mem_filter.mpr ⟨ht, by simp [isUrgent, hdue, hc, hlt]⟩
    have hne : tasks.filter (isUrgent now) ≠ [] := by
      intro hh
      rw [hh] at hmem
      exact absurd hmem (List.not_mem_nil t)
    refine ⟨?_, ?_⟩
    · simp only [checkUrgentTasks]
      rw [if_neg hne]
    · rw [List.length_map, List.length_take]
      exact min_le_left _ _

set_option maxRecDepth 10000 in
/-- Witness for `check_urgent_tasks_spec`: four overdue tasks out of six
give a notice with the exact count 4 listing only the first three
descriptions. -/
theorem check_urgent_tasks_spec_witness :
    checkUrgentTasks d0 10 tasksC5 =
      some (getStyle d0 "firm"
        ("⚠️ You have 4 overdue tasks:\n- T1\n- T2\n- T3" ++
         "\n\nLet\x27s tackle these together! Which one should we start with?")
        none) := by
  have h := (check_urgent_tasks_spec d0 10 tasksC5
    (by intro t ht; fin_cases ht <;> exact ⟨_, rfl⟩)).2
    ⟨⟨DueDate.validStr 0, false, "T1"⟩, by decide, rfl, 0, rfl, by decide⟩
  refine h.1.trans ?_
  decide

/-- C8: a task whose `due_date` is absent, not a string (for example a
`datetime` object, no matter how far past its value), or an unparseable
string is never collected as overdue: it never enters the urgent list, and
a task list made only of such tasks yields no notice. -/
theorem invalid_due_date_skipped (d : StyleDraws) (now : Int)
    (tasks : List PTask) :
    ((∀ t ∈ tasks, ∀ dd, t.due ≠ DueDate.validStr dd) →
      checkUrgentTasks d now tasks = none) ∧
    (∀ t ∈ tasks, (∀ dd, t.due ≠ DueDate.validStr dd) →
      t ∉ tasks.filter (isUrgent now)) := by
  have key : ∀ t : PTask, (∀ dd, t.due ≠ DueDate.validStr dd) →
      isUrgent now t = false := by
    intro t h
    rcases hdue : t.due with _ | _ | dd | dd
    · simp [isUrgent, hdue]
    · simp [isUrgent, hdue]
    · simp [isUrgent, hdue]
    · exact absurd hdue (h dd)
  constructor
  · intro h
    have hnil : tasks.filter (isUrgent now) = [] :=
      List.filter_eq_nil_iff.mpr
        (fun t ht => by rw [key t (h t ht)]; exact Bool.false_ne_true)
    simp [checkUrgentTasks, hnil]
  · intro t ht h hmem
    rw [List.mem_filter, key t h] at hmem
    exact absurd hmem.2 Bool.false_ne_true

/-- Witness for `invalid_due_date_skipped`: a task list whose entries have a
`datetime`-object due date one million days in the past, an unparseable
string, and no due date at all produces no overdue notice, and the ancient
`datetime`-object task is not counted. -/
theorem invalid_due_date_skipped_witness :
    checkUrgentTasks d0 0 tasksC8 = none ∧
    (⟨DueDate.nonString (-1000000), false, "Ancient"⟩ : PTask) ∉
      tasksC8.filter (isUrgent 0) :=
  ⟨(invalid_due_date_skipped d0 0 tasksC8).1
    (by intro t ht dd; fin_cases ht <;> simp),
   (invalid_due_date_skipped d0 0 tasksC8).2 _ (by decide) (by intro dd; simp)⟩

/-! ## Claim C9: unknown style names fall back to the supportive style -/

theorem lowerFirst_length (s : String) : (lowerFirst s).length = s.length := by
  obtain ⟨l⟩ := s
  cases l <;> simp [lowerFirst, String.length]

theorem supportiveStyle_length (d : StyleDraws) (m : String)
    (un : Option String) : m.length < (supportiveStyle d m un).length := by
  have hsp : (" " : String).length = 1 := rfl
  by_cases hf : d.supFollow <;>
    simp [supportiveStyle, hf, String.length_append, hsp] <;> omega

theorem applyFiller_length (d : StyleDraws) (s : String) :
    s.length ≤ (applyFiller d s).length := by
  unfold applyFiller
  split
  · split <;> simp [String.length_append, lowerFirst_length]
  · exact le_refl _

/-- C9: `get_style` is total on style names: a name whose lowercase form is
not one of the four known styles resolves to the supportive transform (the
dictionary lookup default), and the output strictly extends the message, so
the message is never returned unchanged and no error is raised. -/
theorem get_style_unknown_fallback (d : StyleDraws)
    (styleName message : String) (userName : Option String)
    (h : pyLower styleName ∉
      (["supportive", "motivational", "playful", "firm"] : List String)) :
    getStyle d styleName message userName =
      getStyle d "supportive" message userName ∧
    message.length < (getStyle d styleName message userName).length := by
  simp only [List.mem_cons, List.not_mem_nil, or_false, not_or] at h
  obtain ⟨h1, h2, h3, h4⟩ := h
  have hs : styleFun (pyLower styleName) = supportiveStyle := by
    unfold styleFun
    rw [if_neg h1, if_neg h2, if_neg h3, if_neg h4]
  have hlow : pyLower "supportive" = "supportive" := by decide
  have hsup : styleFun (pyLower "supportive") = supportiveStyle := by
    rw [hlow]
    unfold styleFun
    rw [if_pos rfl]
  constructor
  · unfold getStyle
    rw [hs, hsup]
  · unfold getStyle
    rw [hs]
    exact lt_of_lt_of_le (supportiveStyle_length d message userName)
      (applyFiller_length d _)

/-- Witness for `get_style_unknown_fallback` with the unknown name
`"bogus"`. -/
theorem get_style_unknown_fallback_witness :
    pyLower "bogus" ∉
      (["supportive", "motivational", "playful", "firm"] : List String) ∧
    getStyle d0 "bogus" "hi" none = getStyle d0 "supportive" "hi" none ∧
    ("hi" : String).length < (getStyle d0 "bogus" "hi" none).length :=
  ⟨by decide, get_style_unknown_fallback d0 "bogus" "hi" none (by decide)⟩

/-! ## Claim C10: the conversation history never exceeds 20 entries -/

/-- C10: after every history-recording call, the personality engine's
conversation history holds at most 20 entries, and what it holds is a
suffix (the most recent entries) of the previous history extended by the
new entry — for any pre-state whatsoever, so the bound is an invariant of
every sequence of public operations. -/
theorem conversation_history_bound (h : List HistEntry) (m s ts : String)
    (isUser : Bool) :
    (updateConversationHistory h m s isUser ts).length ≤ 20 ∧
    (updateConversationHistory h m s isUser ts).IsSuffix
      (h ++ [⟨m, if isUser then "user" else "ai", s, ts⟩]) := by
  simp only [updateConversationHistory]
  by_cases hl : (h ++ [(⟨m, if isUser then "user" else "ai", s, ts⟩ : HistEntry)]).length > 20
  · rw [if_pos hl]
    refine ⟨?_, List.drop_suffix _ _⟩
    rw [List.length_drop]
    omega
  · rw [if_neg hl]
    exact ⟨by omega, List.suffix_refl _⟩

/-! ## Claim C7: the response generator never propagates an exception -/

/-- C7: for every combination of collaborator outcomes (context build,
proactive check, remote Gemini call, personality fallback — each allowed to
raise) and every message, `generate_response` returns the successful value
of its body when the body does not raise, and the one fixed apology string
whenever the body raises; it never re-raises. -/
theorem generate_response_no_propagation (c : Collab) (message : String) :
    (∀ e, generateResponseBody c message = Except.error e →
      generateResponse c message = apologyString) ∧
    (∀ s, generateResponseBody c message = Except.ok s →
      generateResponse c message = s) := by
  constructor
  · intro e he
    unfold generateResponse
    rw [he]
  · intro s hs
    unfold generateResponse
    rw [hs]

/-- Witness for `generate_response_no_propagation`: a collaborator set whose
context build raises makes the body raise, and the orchestration returns
the apology string. -/
theorem generate_response_no_propagation_witness :
    generateResponseBody collabFail "hi" = Except.error PyErr.failure ∧
    generateResponse collabFail "hi" = apologyString :=
  ⟨rfl, (generate_response_no_propagation collabFail "hi").1 PyErr.failure rfl⟩

/-! ## Claim C2: the fallback embedding -/

/-- Test vector from RFC 1321: the digest of the empty message. -/
theorem md5_testvec_empty : md5 [] =
    [0xd4, 0x1d, 0x8c, 0xd9, 0x8f, 0x00, 0xb2, 0x04,
     0xe9, 0x80, 0x09, 0x98, 0xec, 0xf8, 0x42, 0x7e] := by decide

/-- Test vector from RFC 1321: the digest of `"abc"`. -/
theorem md5_testvec_abc : md5digest "abc" =
    [0x90, 0x01, 0x50, 0x98, 0x3c, 0xd2, 0x4f, 0xb0,
     0xd6, 0x96, 0x3f, 0x7d, 0x28, 0xe1, 0x7f, 0x72] := by decide

theorem fallbackEmbedding_entry (t : String) (i : Nat) (h : i < 768) :
    (fallbackEmbedding t).getD i 0 =
      ((md5digest t).getD (i % (md5digest t).length) 0 : ℚ) / 255 - 1 / 2 := by
  unfold fallbackEmbedding
  have hlen : ((List.range 768).map
      (fun i => ((md5digest t).getD (i % (md5digest t).length) 0 : ℚ) / 255 - 1 / 2)).length = 768 := by
    simp
  rw [List.getD_eq_getElem _ _ (by rw [hlen]; exact h)]
  simp

theorem mem_wordLE_lt (w b : Nat) (h : b ∈ wordLE w) : b < 256 := by
  simp [wordLE] at h
  rcases h with h | h | h | h <;> subst h <;> exact Nat.mod_lt _ (by norm_num)

theorem md5_length (msg : List Nat) : (md5 msg).length = 16 := by
  simp [md5, wordLE]

theorem md5_mem_lt (msg : List Nat) (b : Nat) (hb : b ∈ md5 msg) : b < 256 := by
  simp only [md5, List.mem_append] at hb
  rcases hb with ((h | h) | h) | h <;> exact mem_wordLE_lt _ b h

theorem md5digest_length (t : String) : (md5digest t).length = 16 :=
  md5_length _

theorem md5_getD_lt (msg : List Nat) (i : Nat) : (md5 msg).getD i 0 < 256 := by
  by_cases hi : i < (md5 msg).length
  · rw [List.getD_eq_getElem _ _ hi]
    exact md5_mem_lt msg _ (List.getElem_mem hi)
  · rw [List.getD_eq_default _ _ (by omega)]
    norm_num

/-- C2 (amended): for every text, the fallback embedding is a
deterministic function of the text, has exactly 768 entries, each entry
equals `digest_byte(i mod 16) / 255 - 1/2` over the cyclically repeated
MD5 digest bytes, and each entry lies in the CLOSED interval
[-0.5, 0.5] — the upper endpoint is attained whenever the selected digest
byte is 255 (`255/255 - 0.5 = 0.5`, exact also in the floating-point
arithmetic the code performs), so the original half-open bound
[-0.5, 0.5) is too strong; see the counterexample. -/
theorem fallback_embedding_spec (t : String) :
    (fallbackEmbedding t).length = 768 ∧
    (∀ v ∈ fallbackEmbedding t, -(1 / 2 : ℚ) ≤ v ∧ v ≤ 1 / 2) ∧
    (∀ i, i < 768 → (fallbackEmbedding t).getD i 0 =
      ((md5digest t).getD (i % 16) 0 : ℚ) / 255 - 1 / 2) ∧
    (∀ s, t = s → fallbackEmbedding t = fallbackEmbedding s) := by
  refine ⟨by simp [fallbackEmbedding], ?_, ?_, fun s hs => by rw [hs]⟩
  · intro v hv
    simp only [fallbackEmbedding, List.mem_map] at hv
    obtain ⟨i, _, rfl⟩ := hv
    have hlt : (md5digest t).getD (i % (md5digest t).length) 0 < 256 :=
      md5_getD_lt _ _
    have hle : ((md5digest t).getD (i % (md5digest t).length) 0 : ℚ) ≤ 255 := by
      exact_mod_cast Nat.lt_succ_iff.mp hlt
    have hge : (0 : ℚ) ≤ ((md5digest t).getD (i % (md5digest t).length) 0 : ℚ) :=
      Nat.cast_nonneg _
    constructor
    · have : (0 : ℚ) ≤
          ((md5digest t).getD (i % (md5digest t).length) 0 : ℚ) / 255 :=
        div_nonneg hge (by norm_num)
      linarith
    · have : ((md5digest t).getD (i % (md5digest t).length) 0 : ℚ) / 255 ≤ 1 := by
        rw [div_le_one (by norm_num : (0 : ℚ) < 255)]
        exact hle
      linarith
  · intro i hi
    rw [fallbackEmbedding_entry t i hi, md5digest_length]

set_option maxRecDepth 10000 in
/-- C2 counterexample: the first digest byte of `"lumi"` is 255, so the
first entry of its fallback embedding is exactly 0.5, which is NOT in the
half-open interval [-0.5, 0.5) the claim states. -/
theorem fallback_embedding_value_half :
    (fallbackEmbedding "lumi").getD 0 0 = 1 / 2 ∧
    ¬((fallbackEmbedding "lumi").getD 0 0 < 1 / 2) := by
  have h : (fallbackEmbedding "lumi").getD 0 0 = 1 / 2 := by
    rw [fallbackEmbedding_entry _ 0 (by norm_num)]
    have hb : (md5digest "lumi").getD (0 % (md5digest "lumi").length) 0 = 255 := by
      decide
    rw [hb]
    norm_num
  exact ⟨h, by rw [h]; exact lt_irrefl _⟩

/-- Witness for `fallback_embedding_spec` at the concrete text `"abc"`. -/
theorem fallback_embedding_spec_witness :
    (fallbackEmbedding "abc").length = 768 ∧
    (fallbackEmbedding "abc").getD 0 0 =
      ((md5digest "abc").getD 0 0 : ℚ) / 255 - 1 / 2 :=
  ⟨(fallback_embedding_spec "abc").1,
   by
    have h := (fallback_embedding_spec "abc").2.2.1 0 (by norm_num)
    simpa using h⟩
